import Mathlib

/-!
Verification of the projection engine of `IncomeHelper.py`: the progressive
tax calculator (`TaxCalculator.compute_tax`) and the multi-year salary and
investment projection (`SalaryInvestmentProjector.project_year` /
`run_projection`).  Python floats are embedded as exact rationals; Python's
`round` (banker's rounding, half-to-even) is embedded as `pyround`; the
unbounded final slab width `float("inf")` is embedded as `none`.
-/

namespace IncomeHelper

/-- A tax slab `(slab_amount, rate)`; a `none` width stands for the
`float("inf")` width of the final unbounded slab. -/
abbrev Slab := Option ℚ × ℚ

/-- Configuration of `TaxCalculator`: slabs, cess rate, standard deduction. -/
structure TaxCalc where
  slabs : List Slab
  cess_rate : ℚ
  std_deduction : ℚ

/-- `TaxCalculator.SLABS`, the default slab table. -/
def defaultSlabs : List Slab :=
  [(some 400000, 0), (some 400000, 5/100), (some 400000, 10/100),
   (some 400000, 15/100), (some 400000, 20/100), (some 400000, 25/100),
   (none, 30/100)]

/-- `TaxCalculator()` with all defaults (`CESS_RATE = 0.04`,
`STD_DEDUCTION = 50_000`). -/
def defaultTaxCalc : TaxCalc := ⟨defaultSlabs, 4/100, 50000⟩

/-- `min(remaining, slab_amount)`, where the slab amount may be
`float("inf")` (`none`), in which case the minimum is `remaining`. -/
def slabTake (remaining : ℚ) : Option ℚ → ℚ
  | none => remaining
  | some w => min remaining w

/-- The slab loop of `compute_tax`: walk the slabs, at each take
`min(remaining, slab_amount)`; break as soon as the take is `≤ 0`,
otherwise accumulate `take * rate` and reduce the remaining base. -/
def slabLoop : List Slab → ℚ → ℚ
  | [], _ => 0
  | (w, r) :: rest, remaining =>
    let take := slabTake remaining w
    if take ≤ 0 then 0 else take * r + slabLoop rest (remaining - take)

/-- `TaxCalculator.compute_tax`: standard deduction, progressive slabs,
then cess added on the computed tax. -/
def compute_tax (tc : TaxCalc) (gross_yearly : ℚ) : ℚ :=
  let taxable_income := max 0 (gross_yearly - tc.std_deduction)
  if taxable_income ≤ 0 then 0
  else
    let tax := slabLoop tc.slabs taxable_income
    tax + tax * tc.cess_rate

/-- Python's `round(q)` on an exact rational: round half to even, to ℤ. -/
def pyround (q : ℚ) : ℤ :=
  if q - ⌊q⌋ < 1/2 then ⌊q⌋
  else if 1/2 < q - ⌊q⌋ then ⌊q⌋ + 1
  else if ⌊q⌋ % 2 = 0 then ⌊q⌋ else ⌊q⌋ + 1

/-- Python's `round(q, 2)`: round half to even at two decimal digits. -/
def pyround2 (q : ℚ) : ℚ := (pyround (100 * q) : ℚ) / 100

/-- The `remarks` field: `"High"` or `"Good"`. -/
inductive Remark
  | high
  | good
deriving DecidableEq

/-- One row of the projection output (the dictionary built at the end of
`project_year`, with the rounding already applied): currency fields are the
`round`ed integers, percentage fields the `round(_, 2)` rationals. -/
structure YearlyRecord where
  year : ℕ
  gross_yearly : ℤ
  gross_monthly : ℤ
  tax_yearly : ℤ
  tax_monthly : ℤ
  net_salary_yearly : ℤ
  net_monthly : ℤ
  common_ded_month : ℤ
  other_deductions : ℤ
  total_invest_yearly : ℤ
  monthly_investment : ℤ
  salary_left_month : ℤ
  invest_percentage : ℚ
  remarks : Remark
  running_invest_total : ℤ
  cumulative_return : ℤ
  return_percentage : ℚ
deriving DecidableEq

/-- Class constant `SalaryInvestmentProjector.SALARY_CAP`. -/
def SALARY_CAP : ℚ := 5000000

/-- Class constant `SalaryInvestmentProjector.INVEST_MONTHLY_CAP`. -/
def INVEST_MONTHLY_CAP : ℚ := 100000

/-- Class constant `SalaryInvestmentProjector.SALARY_HIKE_RATE`. -/
def SALARY_HIKE_RATE : ℚ := 5/100

/-- Class constant `SalaryInvestmentProjector.PROF_TAX_MONTH`. -/
def PROF_TAX_MONTH : ℚ := 200

/-- Instance configuration of `SalaryInvestmentProjector`. -/
structure Projector where
  tax_calc : TaxCalc
  salary_hike_rate : ℚ
  salary_cap : ℚ
  invest_monthly_cap : ℚ

/-- `SalaryInvestmentProjector()` with all defaults. -/
def defaultProjector : Projector :=
  ⟨defaultTaxCalc, SALARY_HIKE_RATE, SALARY_CAP, INVEST_MONTHLY_CAP⟩

/-- `SalaryInvestmentProjector.project_year`: one simulated year.  Returns
the rounded record (with `year = 0`, overwritten by the driver) together
with the updated full-precision `running_invest_total` and
`cumulative_return`. -/
def project_year (p : Projector) (gross_yearly monthly_investment other_deductions
    running_invest_total cumulative_return expected_return : ℚ) :
    YearlyRecord × ℚ × ℚ :=
  let basic := 40/100 * gross_yearly
  let emp_pf := 12/100 * basic
  let employer_pf := 12/100 * basic
  let prof_tax_yearly := PROF_TAX_MONTH * 12
  let tax_yearly := compute_tax p.tax_calc gross_yearly
  let common_ded_yearly := emp_pf + employer_pf + prof_tax_yearly
  let common_ded_month := common_ded_yearly / 12
  let net_salary_yearly := gross_yearly - tax_yearly
  let net_monthly := net_salary_yearly / 12
  let gross_monthly := gross_yearly / 12
  let tax_monthly := tax_yearly / 12
  let monthly_investment_capped := min monthly_investment p.invest_monthly_cap
  let salary_left_month :=
    net_monthly - monthly_investment_capped - common_ded_month - other_deductions
  let invest_percentage :=
    if 0 < net_monthly then monthly_investment_capped / net_monthly * 100 else 0
  let total_invest_yearly := monthly_investment_capped * 12
  let running2 := running_invest_total + total_invest_yearly
  let cumulative2 := (cumulative_return + total_invest_yearly) * (1 + expected_return / 100)
  let return_percentage :=
    if 0 < running2 then (cumulative2 - running2) / running2 * 100 else 0
  let remarks := if 40 < invest_percentage then Remark.high else Remark.good
  (⟨0, pyround gross_yearly, pyround gross_monthly, pyround tax_yearly,
    pyround tax_monthly, pyround net_salary_yearly, pyround net_monthly,
    pyround common_ded_month, pyround other_deductions, pyround total_invest_yearly,
    pyround monthly_investment_capped, pyround salary_left_month,
    pyround2 invest_percentage, remarks, pyround running2, pyround cumulative2,
    pyround2 return_percentage⟩,
   running2, cumulative2)

/-- `res["year"] = y`: overwrite the year index of a record. -/
def setYear (r : YearlyRecord) (y : ℕ) : YearlyRecord :=
  ⟨y, r.gross_yearly, r.gross_monthly, r.tax_yearly, r.tax_monthly,
   r.net_salary_yearly, r.net_monthly, r.common_ded_month, r.other_deductions,
   r.total_invest_yearly, r.monthly_investment, r.salary_left_month,
   r.invest_percentage, r.remarks, r.running_invest_total, r.cumulative_return,
   r.return_percentage⟩

/-- The `for y in range(1, years + 1)` loop of `run_projection`, by the
number of remaining iterations.  Note the source advances the salary with
`min(gross * (1 + self.salary_hike_rate), self.SALARY_CAP)` — the class
constant `SALARY_CAP`, not the instance attribute `salary_cap` — while the
investment is advanced with the instance attribute `invest_monthly_cap`. -/
def run_loop (p : Projector) (invest_hike_percent expected_return other_deductions : ℚ) :
    ℕ → ℕ → ℚ → ℚ → ℚ → ℚ → List YearlyRecord
  | 0, _, _, _, _, _ => []
  | n + 1, y, gross, monthly_invest, running_invest_total, cumulative_return =>
    let step := project_year p gross monthly_invest other_deductions
      running_invest_total cumulative_return expected_return
    setYear step.1 y ::
      run_loop p invest_hike_percent expected_return other_deductions n (y + 1)
        (min (gross * (1 + p.salary_hike_rate)) SALARY_CAP)
        (min (monthly_invest * (1 + invest_hike_percent / 100)) p.invest_monthly_cap)
        step.2.1 step.2.2

/-- `SalaryInvestmentProjector.run_projection`: `range(1, years + 1)` runs
`years.toNat` iterations starting at year index 1, from the caller's
starting salary and investment, with both running totals at 0. -/
def run_projection (p : Projector) (start_gross : ℚ) (years : ℤ)
    (start_monthly_investment invest_hike_percent expected_return other_deductions : ℚ) :
    List YearlyRecord :=
  run_loop p invest_hike_percent expected_return other_deductions
    years.toNat 1 start_gross start_monthly_investment 0 0

/-- The full-precision (unrounded) quantities of one projected year. -/
structure FullYear where
  gross_yearly : ℚ
  gross_monthly : ℚ
  tax_yearly : ℚ
  tax_monthly : ℚ
  net_salary_yearly : ℚ
  net_monthly : ℚ
  common_ded_month : ℚ
  other_deductions : ℚ
  total_invest_yearly : ℚ
  monthly_investment : ℚ
  salary_left_month : ℚ
  invest_percentage : ℚ
  running_invest_total : ℚ
  cumulative_return : ℚ
  return_percentage : ℚ

/-- The single-year step as the spec words it (§4.2, steps 1-13), kept at
full precision with no rounding anywhere: basic is 40% of gross, both
provident-fund contributions are 12% of basic, the statutory charge is the
flat monthly charge times 12, tax comes from the tax calculator, net is
gross minus tax, the monthly investment is capped, the percentages are
guarded against non-positive denominators, contributions are added and then
the whole balance compounds. -/
def specFullYear (p : Projector) (gross_yearly monthly_investment other_deductions
    running_invest_total cumulative_return expected_return : ℚ) : FullYear :=
  let basic := 40/100 * gross_yearly
  let emp_pf := 12/100 * basic
  let employer_pf := 12/100 * basic
  let prof_tax_yearly := PROF_TAX_MONTH * 12
  let tax_yearly := compute_tax p.tax_calc gross_yearly
  let common_ded_yearly := emp_pf + employer_pf + prof_tax_yearly
  let common_ded_month := common_ded_yearly / 12
  let net_salary_yearly := gross_yearly - tax_yearly
  let net_monthly := net_salary_yearly / 12
  let monthly_investment_capped := min monthly_investment p.invest_monthly_cap
  let total_invest_yearly := monthly_investment_capped * 12
  let running2 := running_invest_total + total_invest_yearly
  let cumulative2 := (cumulative_return + total_invest_yearly) * (1 + expected_return / 100)
  ⟨gross_yearly, gross_yearly / 12, tax_yearly, tax_yearly / 12,
   net_salary_yearly, net_monthly, common_ded_month, other_deductions,
   total_invest_yearly, monthly_investment_capped,
   net_monthly - monthly_investment_capped - common_ded_month - other_deductions,
   if 0 < net_monthly then monthly_investment_capped / net_monthly * 100 else 0,
   running2, cumulative2,
   if 0 < running2 then (cumulative2 - running2) / running2 * 100 else 0⟩

/-- A tax configuration whose slab table is finite (no unbounded entry) and
contains a zero-width slab: `[(0, 0.10), (100, 0.10)]`, no cess, no
standard deduction. -/
def zeroWidthTC : TaxCalc := ⟨[(some 0, 1/10), (some 100, 1/10)], 0, 0⟩

/-- A tax configuration with one finite, strictly positive slab:
`[(100, 0.10)]`, no cess, no standard deduction. -/
def finiteTC : TaxCalc := ⟨[(some 100, 1/10)], 0, 0⟩

/-- A projector configured with a custom salary cap of 1000000 (all other
parameters at their defaults). -/
def lowCapProjector : Projector :=
  ⟨defaultTaxCalc, SALARY_HIKE_RATE, 1000000, INVEST_MONTHLY_CAP⟩

/-- Unfolding the loop of `run_projection` at zero remaining iterations. -/
theorem run_loop_zero (p : Projector) (a b c : ℚ) (y : ℕ) (g m rt cr : ℚ) :
    run_loop p a b c 0 y g m rt cr = [] := rfl

/-- Unfolding one iteration of the loop of `run_projection`: emit the
record of `project_year` tagged with the year index, then continue with the
hiked (and capped) salary and investment and the updated full-precision
running totals. -/
theorem run_loop_succ (p : Projector) (a b c : ℚ) (n y : ℕ) (g m rt cr : ℚ) :
    run_loop p a b c (n + 1) y g m rt cr =
      setYear (project_year p g m c rt cr b).1 y ::
        run_loop p a b c n (y + 1)
          (min (g * (1 + p.salary_hike_rate)) SALARY_CAP)
          (min (m * (1 + a / 100)) p.invest_monthly_cap)
          (project_year p g m c rt cr b).2.1
          (project_year p g m c rt cr b).2.2 := rfl

/-- The record of `project_year` reports the updated running invested
total, rounded. -/
theorem project_year_record_running (p : Projector) (g m od rt cr er : ℚ) :
    (project_year p g m od rt cr er).1.running_invest_total =
      pyround (rt + min m p.invest_monthly_cap * 12) := rfl

/-- The second component of `project_year` is the full-precision updated
running invested total. -/
theorem project_year_running (p : Projector) (g m od rt cr er : ℚ) :
    (project_year p g m od rt cr er).2.1 =
      rt + min m p.invest_monthly_cap * 12 := rfl

/-- The third component of `project_year` is the full-precision updated
portfolio value. -/
theorem project_year_cumulative (p : Projector) (g m od rt cr er : ℚ) :
    (project_year p g m od rt cr er).2.2 =
      (cr + min m p.invest_monthly_cap * 12) * (1 + er / 100) := rfl

/-- The record of `project_year` reports the rounded gross salary. -/
theorem project_year_record_gross (p : Projector) (g m od rt cr er : ℚ) :
    (project_year p g m od rt cr er).1.gross_yearly = pyround g := rfl

/-- The record of `project_year` reports the rounded capped monthly
investment. -/
theorem project_year_record_invest (p : Projector) (g m od rt cr er : ℚ) :
    (project_year p g m od rt cr er).1.monthly_investment =
      pyround (min m p.invest_monthly_cap) := rfl

/-- `setYear` changes no field but the year index. -/
theorem setYear_fields (r : YearlyRecord) (y : ℕ) :
    (setYear r y).gross_yearly = r.gross_yearly ∧
    (setYear r y).monthly_investment = r.monthly_investment ∧
    (setYear r y).running_invest_total = r.running_invest_total :=
  ⟨rfl, rfl, rfl⟩

/-- `pyround` never rounds below the floor. -/
theorem floor_le_pyround (q : ℚ) : ⌊q⌋ ≤ pyround q := by
  unfold pyround
  split_ifs <;> omega

/-- `pyround` never rounds above the ceiling `⌊q⌋ + 1`. -/
theorem pyround_le_floor_add_one (q : ℚ) : pyround q ≤ ⌊q⌋ + 1 := by
  unfold pyround
  split_ifs <;> omega

/-- `pyround` is monotone. -/
theorem pyround_mono {x y : ℚ} (h : x ≤ y) : pyround x ≤ pyround y := by
  rcases lt_or_eq_of_le (Int.floor_mono h) with hf | hf
  · calc pyround x ≤ ⌊x⌋ + 1 := pyround_le_floor_add_one x
      _ ≤ ⌊y⌋ := by omega
      _ ≤ pyround y := floor_le_pyround y
  · unfold pyround
    rw [hf]
    have hxy : x - ⌊y⌋ ≤ y - ⌊y⌋ := by linarith
    split_ifs <;> first | omega | linarith

/-- `pyround` rounds to a nearest integer: the error is at most 1/2. -/
theorem pyround_nearest (q : ℚ) : |(pyround q : ℚ) - q| ≤ 1/2 := by
  have h0 : (⌊q⌋ : ℚ) ≤ q := Int.floor_le q
  have h1 : q < ⌊q⌋ + 1 := Int.lt_floor_add_one q
  unfold pyround
  split_ifs with ha hb hc <;>
    · simp only [abs_le]
      push_cast
      constructor <;> linarith

/-- `pyround2` rounds to a nearest multiple of 1/100: error at most 1/200. -/
theorem pyround2_nearest (q : ℚ) : |pyround2 q - q| ≤ 1/200 := by
  have h := pyround_nearest (100 * q)
  rw [abs_le] at h ⊢
  unfold pyround2
  constructor <;> [linarith [h.1]; linarith [h.2]]

/-- C2: with the default configuration (standard deduction 50000, the seven
default slabs, cess 0.04), the tax on a gross income of 1000000 is exactly
36400: taxable base 950000, slab tax 35000, times 1.04. -/
theorem default_tax_scenario :
    max 0 ((1000000 : ℚ) - defaultTaxCalc.std_deduction) = 950000 ∧
    slabLoop defaultTaxCalc.slabs 950000 = 35000 ∧
    compute_tax defaultTaxCalc 1000000 = 36400 := by
  refine ⟨by norm_num [defaultTaxCalc], ?_, ?_⟩ <;>
    norm_num [compute_tax, defaultTaxCalc, defaultSlabs, slabLoop, slabTake, min_def]

/-- C10: whenever the gross income is at most the standard deduction
(negative gross included), the computed tax is 0: the taxable base clamps
to 0 and `compute_tax` short-circuits. -/
theorem tax_zero_at_or_below_deduction (tc : TaxCalc) (gross : ℚ)
    (h : gross ≤ tc.std_deduction) : compute_tax tc gross = 0 := by
  unfold compute_tax
  have hmax : max 0 (gross - tc.std_deduction) = 0 :=
    max_eq_left (sub_nonpos.mpr h)
  simp [hmax]

/-- Witness for C10 at the default configuration and gross 40000. -/
theorem tax_zero_at_or_below_deduction_witness :
    compute_tax defaultTaxCalc 40000 = 0 :=
  tax_zero_at_or_below_deduction defaultTaxCalc 40000 (by norm_num [defaultTaxCalc])

/-- C8: a zero or negative `years` makes `run_projection` return the empty
sequence — the loop body never executes, no record is produced and no
error is raised (the function is total). -/
theorem run_projection_years_nonpos (p : Projector) (start_gross : ℚ) (years : ℤ)
    (start_monthly_investment invest_hike_percent expected_return other_deductions : ℚ)
    (h : years ≤ 0) :
    run_projection p start_gross years start_monthly_investment
      invest_hike_percent expected_return other_deductions = [] := by
  unfold run_projection
  rw [Int.toNat_of_nonpos h]
  rfl

/-- Witness for C8 at the default projector and `years = -3`. -/
theorem run_projection_years_nonpos_witness :
    run_projection defaultProjector 1000000 (-3) 20000 10 12 0 = [] :=
  run_projection_years_nonpos defaultProjector 1000000 (-3) 20000 10 12 0 (by norm_num)

/-- C3: the single-year run with startGross 1200000, one year, monthly
investment 20000, investment hike 10%, expected return 12% and no other
deductions yields exactly one record, whose invested total is 240000,
portfolio value 268800, running invested total 240000 and return
percentage 12.00. -/
theorem single_year_run_scenario :
    (run_projection defaultProjector 1200000 1 20000 10 12 0).map
      (fun r => (r.total_invest_yearly, r.cumulative_return,
        r.running_invest_total, r.return_percentage)) =
      [(240000, 268800, 240000, 12)] := by
  have h1 : (1 : ℤ).toNat = 0 + 1 := rfl
  rw [run_projection, h1, run_loop_succ, run_loop_zero]
  norm_num [project_year, setYear, compute_tax, defaultProjector, defaultTaxCalc,
    defaultSlabs, slabLoop, slabTake, pyround, pyround2, min_def,
    INVEST_MONTHLY_CAP, PROF_TAX_MONTH]

/-- C4: every currency field of the emitted record is the full-precision
value rounded to a nearest whole unit (`pyround`, error at most 1/2), every
percentage field is the full-precision value rounded at two decimal digits
(`pyround2`, error at most 1/200); the rounding happens only in the record,
while the running totals returned by the step and threaded into the next
iteration of the driver loop are the full-precision values. -/
theorem rounding_discipline (p : Projector) (g m od rt cr er : ℚ) :
    (let fp := specFullYear p g m od rt cr er
     let step := project_year p g m od rt cr er
     (step.1.gross_yearly = pyround fp.gross_yearly ∧
      step.1.gross_monthly = pyround fp.gross_monthly ∧
      step.1.tax_yearly = pyround fp.tax_yearly ∧
      step.1.tax_monthly = pyround fp.tax_monthly ∧
      step.1.net_salary_yearly = pyround fp.net_salary_yearly ∧
      step.1.net_monthly = pyround fp.net_monthly ∧
      step.1.common_ded_month = pyround fp.common_ded_month ∧
      step.1.other_deductions = pyround fp.other_deductions ∧
      step.1.total_invest_yearly = pyround fp.total_invest_yearly ∧
      step.1.monthly_investment = pyround fp.monthly_investment ∧
      step.1.salary_left_month = pyround fp.salary_left_month ∧
      step.1.invest_percentage = pyround2 fp.invest_percentage ∧
      step.1.return_percentage = pyround2 fp.return_percentage ∧
      step.1.running_invest_total = pyround fp.running_invest_total ∧
      step.1.cumulative_return = pyround fp.cumulative_return) ∧
     (step.2.1 = fp.running_invest_total ∧ step.2.2 = fp.cumulative_return) ∧
     (∀ hike n y gg mm rrt ccr,
       run_loop p hike er od (n + 1) y gg mm rrt ccr =
         setYear (project_year p gg mm od rrt ccr er).1 y ::
           run_loop p hike er od n (y + 1)
             (min (gg * (1 + p.salary_hike_rate)) SALARY_CAP)
             (min (mm * (1 + hike / 100)) p.invest_monthly_cap)
             (project_year p gg mm od rrt ccr er).2.1
             (project_year p gg mm od rrt ccr er).2.2) ∧
     (∀ q : ℚ, |(pyround q : ℚ) - q| ≤ 1/2) ∧
     (∀ q : ℚ, |pyround2 q - q| ≤ 1/200)) := by
  exact ⟨⟨rfl, rfl, rfl, rfl, rfl, rfl, rfl, rfl, rfl, rfl, rfl, rfl, rfl, rfl, rfl⟩,
    ⟨rfl, rfl⟩, fun _ _ _ _ _ _ _ => rfl, pyround_nearest, pyround2_nearest⟩

/-- With non-negative rates the slab loop never produces a negative tax. -/
theorem slabLoop_nonneg (slabs : List Slab) (b : ℚ)
    (hr : ∀ s ∈ slabs, 0 ≤ s.2) : 0 ≤ slabLoop slabs b := by
  induction slabs generalizing b with
  | nil => simp [slabLoop]
  | cons s rest ihr =>
    obtain ⟨w, r⟩ := s
    rw [slabLoop]
    split_ifs with h
    · exact le_refl 0
    · have h0 : 0 < slabTake b w := lt_of_not_ge h
      have hr0 : 0 ≤ r := hr (w, r) (List.mem_cons_self _ _)
      have := ihr (b - slabTake b w) (fun s hs => hr s (List.mem_cons_of_mem _ hs))
      positivity

/-- The take of a slab is monotone in the remaining base. -/
theorem slabTake_mono {b1 b2 : ℚ} (h : b1 ≤ b2) (w : Option ℚ) :
    slabTake b1 w ≤ slabTake b2 w := by
  cases w with
  | none => exact h
  | some a => exact min_le_min h (le_refl a)

/-- The base left after a slab's take is monotone in the remaining base. -/
theorem sub_slabTake_mono {b1 b2 : ℚ} (h : b1 ≤ b2) (w : Option ℚ) :
    b1 - slabTake b1 w ≤ b2 - slabTake b2 w := by
  cases w with
  | none => simp [slabTake]
  | some a =>
    simp only [slabTake]
    rcases le_total b1 a with h1 | h1
    · rw [min_eq_left h1]
      have : min b2 a ≤ b2 := min_le_left b2 a
      linarith
    · rw [min_eq_right h1, min_eq_right (le_trans h1 h)]
      linarith

/-- With non-negative rates the slab loop is monotone in the taxable
base. -/
theorem slabLoop_mono (slabs : List Slab) {b1 b2 : ℚ}
    (hr : ∀ s ∈ slabs, 0 ≤ s.2) (h : b1 ≤ b2) :
    slabLoop slabs b1 ≤ slabLoop slabs b2 := by
  induction slabs generalizing b1 b2 with
  | nil => simp [slabLoop]
  | cons s rest ihr =>
    obtain ⟨w, r⟩ := s
    have ht : slabTake b1 w ≤ slabTake b2 w := slabTake_mono h w
    rw [slabLoop, slabLoop]
    split_ifs with h1 h2 h3
    · exact le_refl 0
    · have h0 : 0 < slabTake b2 w := lt_of_not_ge h2
      have hr0 : 0 ≤ r := hr (w, r) (List.mem_cons_self _ _)
      have hrest := slabLoop_nonneg rest (b2 - slabTake b2 w)
        (fun s hs => hr s (List.mem_cons_of_mem _ hs))
      positivity
    · exact absurd (le_trans ht h3) h1
    · have hr0 : 0 ≤ r := hr (w, r) (List.mem_cons_self _ _)
      have hmul : slabTake b1 w * r ≤ slabTake b2 w * r :=
        mul_le_mul_of_nonneg_right ht hr0
      have hihr := ihr (fun s hs => hr s (List.mem_cons_of_mem _ hs))
        (sub_slabTake_mono h w)
      linarith

/-- C5: for every tax configuration with non-negative slab rates and a
non-negative cess rate, `compute_tax` is monotone: a strictly larger gross
income never pays strictly less tax. -/
theorem compute_tax_mono (tc : TaxCalc) (gross1 gross2 : ℚ)
    (hr : ∀ s ∈ tc.slabs, 0 ≤ s.2) (hc : 0 ≤ tc.cess_rate)
    (h : gross1 < gross2) :
    compute_tax tc gross1 ≤ compute_tax tc gross2 := by
  have e : ∀ gross : ℚ, compute_tax tc gross =
      if max 0 (gross - tc.std_deduction) ≤ 0 then 0
      else slabLoop tc.slabs (max 0 (gross - tc.std_deduction)) +
        slabLoop tc.slabs (max 0 (gross - tc.std_deduction)) * tc.cess_rate :=
    fun _ => rfl
  rw [e, e]
  have hbase : max 0 (gross1 - tc.std_deduction) ≤ max 0 (gross2 - tc.std_deduction) :=
    max_le_max (le_refl 0) (by linarith)
  split_ifs with h1 h2 h3
  · exact le_refl 0
  · have ht2 : 0 ≤ slabLoop tc.slabs (max 0 (gross2 - tc.std_deduction)) :=
      slabLoop_nonneg _ _ hr
    nlinarith
  · exact absurd (le_trans hbase h3) h1
  · have ht : slabLoop tc.slabs (max 0 (gross1 - tc.std_deduction)) ≤
        slabLoop tc.slabs (max 0 (gross2 - tc.std_deduction)) :=
      slabLoop_mono tc.slabs hr hbase
    have ht1 : 0 ≤ slabLoop tc.slabs (max 0 (gross1 - tc.std_deduction)) :=
      slabLoop_nonneg _ _ hr
    nlinarith

/-- Witness for C5 at the default configuration, incomes 100 < 2000000. -/
theorem compute_tax_mono_witness :
    compute_tax defaultTaxCalc 100 ≤ compute_tax defaultTaxCalc 2000000 :=
  compute_tax_mono defaultTaxCalc 100 2000000
    (by simp [defaultTaxCalc, defaultSlabs]; norm_num)
    (by norm_num [defaultTaxCalc]) (by norm_num)

/-- Invariant of the driver loop: when the running investment amount is
non-negative, the cap and the hike keep it non-negative, so the reported
running invested totals form a non-decreasing chain; moreover the first
emitted record reports `pyround` of the updated running total. -/
theorem run_loop_chain (p : Projector) (ihp er od : ℚ)
    (hcap : 0 ≤ p.invest_monthly_cap) (hh : -100 ≤ ihp) :
    ∀ n y (g m rt cr : ℚ), 0 ≤ m →
      List.Chain' (fun a b : YearlyRecord =>
        a.running_invest_total ≤ b.running_invest_total)
        (run_loop p ihp er od n y g m rt cr) ∧
      ∀ r ∈ (run_loop p ihp er od n y g m rt cr).head?,
        r.running_invest_total = pyround (rt + min m p.invest_monthly_cap * 12) := by
  intro n
  induction n with
  | zero =>
    intro y g m rt cr _
    refine ⟨by simp [run_loop_zero], ?_⟩
    simp [run_loop_zero]
  | succ k ihk =>
    intro y g m rt cr hm
    have hm2 : 0 ≤ min (m * (1 + ihp / 100)) p.invest_monthly_cap :=
      le_min (mul_nonneg hm (by linarith)) hcap
    obtain ⟨hchain, hhead⟩ := ihk (y + 1)
      (min (g * (1 + p.salary_hike_rate)) SALARY_CAP)
      (min (m * (1 + ihp / 100)) p.invest_monthly_cap)
      (rt + min m p.invest_monthly_cap * 12)
      ((cr + min m p.invest_monthly_cap * 12) * (1 + er / 100)) hm2
    rw [run_loop_succ, project_year_running, project_year_cumulative]
    constructor
    · rw [List.chain'_cons']
      refine ⟨?_, hchain⟩
      intro b hb
      have hbr := hhead b hb
      have har : (setYear (project_year p g m od rt cr er).1 y).running_invest_total =
          pyround (rt + min m p.invest_monthly_cap * 12) := rfl
      rw [har, hbr]
      have h0 : 0 ≤ min (min (m * (1 + ihp / 100)) p.invest_monthly_cap)
          p.invest_monthly_cap * 12 :=
        mul_nonneg (le_min hm2 hcap) (by norm_num)
      exact pyround_mono (by linarith)
    · intro r hr
      rw [List.head?_cons, Option.mem_some_iff] at hr
      rw [← hr]
      rfl

/-- C6 amended: for every run whose starting monthly investment is
non-negative, whose configured monthly investment cap is non-negative, and
whose investment hike percent is at least -100, the running invested total
reported in consecutive yearly records is monotonically non-decreasing
(for a negative starting investment the code lets the total decrease). -/
theorem running_invest_total_monotone (p : Projector) (start_gross : ℚ) (years : ℤ)
    (start_monthly_investment invest_hike_percent expected_return other_deductions : ℚ)
    (hm : 0 ≤ start_monthly_investment) (hcap : 0 ≤ p.invest_monthly_cap)
    (hh : -100 ≤ invest_hike_percent) :
    List.Chain' (fun a b : YearlyRecord =>
      a.running_invest_total ≤ b.running_invest_total)
      (run_projection p start_gross years start_monthly_investment
        invest_hike_percent expected_return other_deductions) :=
  (run_loop_chain p invest_hike_percent expected_return other_deductions hcap hh
    years.toNat 1 start_gross start_monthly_investment 0 0 hm).1

/-- Witness for the amended C6: a three-year default run. -/
theorem running_invest_total_monotone_witness :
    List.Chain' (fun a b : YearlyRecord =>
      a.running_invest_total ≤ b.running_invest_total)
      (run_projection defaultProjector 1200000 3 20000 10 12 0) :=
  running_invest_total_monotone defaultProjector 1200000 3 20000 10 12 0
    (by norm_num) (by norm_num [defaultProjector, INVEST_MONTHLY_CAP]) (by norm_num)

/-- Counterexample to C6 as stated: with a negative starting monthly
investment of -1000 (and a 10% hike), the reported running invested totals
of a two-year default run are -12000 and then -25200 — strictly
decreasing. -/
theorem running_invest_total_decreases_example :
    ¬ List.Chain' (fun a b : YearlyRecord =>
        a.running_invest_total ≤ b.running_invest_total)
      (run_projection defaultProjector 600000 2 (-1000) 10 12 0) := by
  intro hch
  have hmap := (List.chain'_map
    (fun r : YearlyRecord => r.running_invest_total)).mpr hch
  have hval : (run_projection defaultProjector 600000 2 (-1000) 10 12 0).map
      (fun r : YearlyRecord => r.running_invest_total) = [-12000, -25200] := by
    have h2 : (2 : ℤ).toNat = 0 + 1 + 1 := rfl
    rw [run_projection, h2, run_loop_succ, run_loop_succ, run_loop_zero]
    norm_num [project_year, setYear, compute_tax, defaultProjector, defaultTaxCalc,
      defaultSlabs, slabLoop, slabTake, pyround, min_def,
      INVEST_MONTHLY_CAP, PROF_TAX_MONTH]
  rw [hval, List.chain'_cons] at hmap
  exact absurd hmap.1 (by norm_num)

/-- Bound kept by the driver loop: the reported capped monthly investment
never exceeds the (rounded) configured cap, and — because the loop advances
the salary with `min(gross * (1 + hike), SALARY_CAP)` against the class
constant — the reported gross never exceeds the (rounded) bound `B`
whenever the incoming gross is below `B` and `SALARY_CAP ≤ B`. -/
theorem run_loop_bounds (p : Projector) (a b c B : ℚ) (hB : SALARY_CAP ≤ B) :
    ∀ n y (g m rt cr : ℚ), g ≤ B →
      ∀ r ∈ run_loop p a b c n y g m rt cr,
        r.monthly_investment ≤ pyround p.invest_monthly_cap ∧
        r.gross_yearly ≤ pyround B := by
  intro n
  induction n with
  | zero =>
    intro y g m rt cr _ r hr
    simp [run_loop_zero] at hr
  | succ k ihk =>
    intro y g m rt cr hg r hr
    rw [run_loop_succ] at hr
    rcases List.mem_cons.mp hr with h | h
    · subst h
      refine ⟨?_, ?_⟩
      · exact pyround_mono (min_le_right m p.invest_monthly_cap)
      · exact pyround_mono hg
    · exact ihk (y + 1) _ _ _ _ (le_trans (min_le_right _ _) hB) r h

/-- C1 amended: in every run, each reported capped monthly investment is at
most the (rounded) configured monthly investment cap; the configured
`salary_cap`, however, does not bound the run — the first year's gross is
the uncapped starting gross and later years are capped at the class
constant `SALARY_CAP = 5000000`, so each reported gross is only at most the
(rounded) maximum of the starting gross and `SALARY_CAP`. -/
theorem caps_within_run (p : Projector) (start_gross : ℚ) (years : ℤ)
    (start_monthly_investment invest_hike_percent expected_return other_deductions : ℚ) :
    ∀ r ∈ run_projection p start_gross years start_monthly_investment
        invest_hike_percent expected_return other_deductions,
      r.monthly_investment ≤ pyround p.invest_monthly_cap ∧
      r.gross_yearly ≤ pyround (max start_gross SALARY_CAP) :=
  fun r hr =>
    run_loop_bounds p invest_hike_percent expected_return other_deductions
      (max start_gross SALARY_CAP) (le_max_right _ _)
      years.toNat 1 start_gross start_monthly_investment 0 0
      (le_max_left _ _) r hr

/-- Witness for the amended C1 at the all-zero one-year default run. -/
theorem caps_within_run_witness :
    (setYear (project_year defaultProjector 0 0 0 0 0 0).1 1).monthly_investment ≤
      pyround defaultProjector.invest_monthly_cap ∧
    (setYear (project_year defaultProjector 0 0 0 0 0 0).1 1).gross_yearly ≤
      pyround (max 0 SALARY_CAP) :=
  caps_within_run defaultProjector 0 1 0 0 0 0
    (setYear (project_year defaultProjector 0 0 0 0 0 0).1 1)
    (by
      have h1 : (1 : ℤ).toNat = 0 + 1 := rfl
      rw [run_projection, h1, run_loop_succ]
      exact List.mem_cons_self _ _)

/-- Counterexample to C1 as stated: with a configured salary cap of
1000000, a starting gross of 2000000 and two years, the claim "every
year's gross is at most the configured salaryCap" fails — year 1 reports
the uncapped 2000000 and year 2 reports 2100000 (the advance is capped at
the class constant 5000000, not at the configured 1000000). -/
theorem cap_invariant_counterexample :
    ¬ ∀ r ∈ run_projection lowCapProjector 2000000 2 10000 10 12 0,
        ((r.gross_yearly : ℚ) ≤ lowCapProjector.salary_cap ∧
         (r.monthly_investment : ℚ) ≤ lowCapProjector.invest_monthly_cap) := by
  intro hall
  have h2 : (2 : ℤ).toNat = 0 + 1 + 1 := rfl
  have hmem : setYear (project_year lowCapProjector 2000000 10000 0 0 0 12).1 1 ∈
      run_projection lowCapProjector 2000000 2 10000 10 12 0 := by
    rw [run_projection, h2, run_loop_succ]
    exact List.mem_cons_self _ _
  have hle := (hall _ hmem).1
  have heq : (setYear (project_year lowCapProjector 2000000 10000 0 0 0 12).1 1).gross_yearly =
      pyround 2000000 := rfl
  rw [heq] at hle
  rw [show pyround (2000000 : ℚ) = 2000000 by norm_num [pyround]] at hle
  norm_num [lowCapProjector] at hle

/-- Unfolding one slab of the loop of `compute_tax`. -/
theorem slabLoop_cons (w : Option ℚ) (r : ℚ) (rest : List Slab) (b : ℚ) :
    slabLoop ((w, r) :: rest) b =
      if slabTake b w ≤ 0 then 0
      else slabTake b w * r + slabLoop rest (b - slabTake b w) := rfl

/-- The widths of a table of strictly positive finite slabs sum to a
non-negative total. -/
theorem widths_sum_nonneg (slabs : List Slab)
    (h : ∀ s ∈ slabs, ∃ w : ℚ, s.1 = some w ∧ 0 < w) :
    0 ≤ (slabs.map (fun s => s.1.getD 0)).sum := by
  apply List.sum_nonneg
  intro x hx
  obtain ⟨s, hs, hfs⟩ := List.mem_map.mp hx
  obtain ⟨w, hw, hwpos⟩ := h s hs
  rw [← hfs, hw]
  exact le_of_lt hwpos

/-- When every slab is finite with a strictly positive width and the
taxable base strictly exceeds the total width of the table, the loop
consumes every slab fully and the excess base is simply dropped: the slab
tax is the sum of `width × rate` over the whole table. -/
theorem slabLoop_exhaust (slabs : List Slab) :
    ∀ b : ℚ, (∀ s ∈ slabs, ∃ w : ℚ, s.1 = some w ∧ 0 < w) →
      (slabs.map (fun s => s.1.getD 0)).sum < b →
      slabLoop slabs b = (slabs.map (fun s => s.1.getD 0 * s.2)).sum := by
  induction slabs with
  | nil => intro b _ _; simp [slabLoop]
  | cons s rest ihr =>
    obtain ⟨o, r⟩ := s
    intro b h hb
    obtain ⟨w, hw, hwpos⟩ := h (o, r) (List.mem_cons_self _ _)
    simp only at hw
    subst hw
    have hrest : ∀ s ∈ rest, ∃ w : ℚ, s.1 = some w ∧ 0 < w :=
      fun s hs => h s (List.mem_cons_of_mem _ hs)
    have hS : 0 ≤ (rest.map (fun s => s.1.getD 0)).sum := widths_sum_nonneg rest hrest
    simp only [List.map_cons, List.sum_cons, Option.getD_some] at hb ⊢
    have htake : slabTake b (some w) = w := min_eq_right (by linarith)
    rw [slabLoop_cons, htake, if_neg (not_le.mpr hwpos),
      ihr (b - w) hrest (by linarith)]

/-- C7 amended: for every slab table all of whose entries are finite with
strictly positive width (summing to `W`) and every income whose taxable
base exceeds `W`, `compute_tax` silently taxes only the first `W` units:
the result is exactly the full-table slab tax `Σ widthᵢ × rateᵢ` scaled by
`(1 + cess)`, the excess base contributes nothing, and no error is raised
(a zero-width entry instead makes the loop break early, see the
counterexample). -/
theorem finite_table_truncates (tc : TaxCalc) (gross : ℚ)
    (hpos : ∀ s ∈ tc.slabs, ∃ w : ℚ, s.1 = some w ∧ 0 < w)
    (hover : (tc.slabs.map (fun s => s.1.getD 0)).sum <
      max 0 (gross - tc.std_deduction)) :
    compute_tax tc gross =
      (tc.slabs.map (fun s => s.1.getD 0 * s.2)).sum * (1 + tc.cess_rate) := by
  have hS : 0 ≤ (tc.slabs.map (fun s => s.1.getD 0)).sum := widths_sum_nonneg _ hpos
  have hb : 0 < max 0 (gross - tc.std_deduction) := lt_of_le_of_lt hS hover
  have e : compute_tax tc gross =
      if max 0 (gross - tc.std_deduction) ≤ 0 then 0
      else slabLoop tc.slabs (max 0 (gross - tc.std_deduction)) +
        slabLoop tc.slabs (max 0 (gross - tc.std_deduction)) * tc.cess_rate := rfl
  rw [e, if_neg (not_le.mpr hb), slabLoop_exhaust tc.slabs _ hpos hover]
  ring

/-- Witness for the amended C7: one slab of width 100 at rate 0.10, no
cess, taxable base 200 — the tax is 10, the 100 units beyond the table
untaxed. -/
theorem finite_table_truncates_witness :
    compute_tax finiteTC 200 =
      (finiteTC.slabs.map (fun s => s.1.getD 0 * s.2)).sum * (1 + finiteTC.cess_rate) :=
  finite_table_truncates finiteTC 200
    (by
      intro s hs
      simp only [finiteTC, List.mem_singleton] at hs
      subst hs
      exact ⟨100, rfl, by norm_num⟩)
    (by norm_num [finiteTC])

/-- Counterexample to C7 as stated: the finite table
`[(0, 0.10), (100, 0.10)]` (total width 100, no cess, no deduction) on a
taxable base of 200 makes the loop break at the zero-width slab, yielding
tax 0 instead of the 10 the claim's formula predicts for the covered
units. -/
theorem finite_table_counterexample :
    (zeroWidthTC.slabs.map (fun s => s.1.getD 0)).sum = 100 ∧
    max 0 ((200 : ℚ) - zeroWidthTC.std_deduction) = 200 ∧
    compute_tax zeroWidthTC 200 = 0 ∧
    (zeroWidthTC.slabs.map (fun s => s.1.getD 0 * s.2)).sum *
      (1 + zeroWidthTC.cess_rate) = 10 ∧
    compute_tax zeroWidthTC 200 ≠
      (zeroWidthTC.slabs.map (fun s => s.1.getD 0 * s.2)).sum *
        (1 + zeroWidthTC.cess_rate) := by
  norm_num [zeroWidthTC, compute_tax, slabLoop, slabTake, min_def]

/-- C9: the two percentage fields of each emitted record are guarded
divisions: the investment percentage is `capped / netMonthly × 100` only
under the guard `0 < netMonthly` and 0 otherwise, and the return
percentage is `(portfolio - invested) / invested × 100` only under the
guard `0 < runningInvestedTotal` and 0 otherwise, so neither field ever
divides by a non-positive value. -/
theorem division_guards (p : Projector) (g m od rt cr er : ℚ) :
    (project_year p g m od rt cr er).1.invest_percentage =
      pyround2 (if 0 < (g - compute_tax p.tax_calc g) / 12
        then min m p.invest_monthly_cap / ((g - compute_tax p.tax_calc g) / 12) * 100
        else 0) ∧
    (project_year p g m od rt cr er).1.return_percentage =
      pyround2 (if 0 < rt + min m p.invest_monthly_cap * 12
        then ((cr + min m p.invest_monthly_cap * 12) * (1 + er / 100) -
            (rt + min m p.invest_monthly_cap * 12)) /
            (rt + min m p.invest_monthly_cap * 12) * 100
        else 0) ∧
    ((g - compute_tax p.tax_calc g) / 12 ≤ 0 →
      (project_year p g m od rt cr er).1.invest_percentage = 0) ∧
    (rt + min m p.invest_monthly_cap * 12 ≤ 0 →
      (project_year p g m od rt cr er).1.return_percentage = 0) := by
  refine ⟨rfl, rfl, ?_, ?_⟩
  · intro hn
    have e : (project_year p g m od rt cr er).1.invest_percentage =
        pyround2 (if 0 < (g - compute_tax p.tax_calc g) / 12
          then min m p.invest_monthly_cap / ((g - compute_tax p.tax_calc g) / 12) * 100
          else 0) := rfl
    rw [e, if_neg (not_lt.mpr hn)]
    norm_num [pyround2, pyround]
  · intro hn
    have e : (project_year p g m od rt cr er).1.return_percentage =
        pyround2 (if 0 < rt + min m p.invest_monthly_cap * 12
          then ((cr + min m p.invest_monthly_cap * 12) * (1 + er / 100) -
              (rt + min m p.invest_monthly_cap * 12)) /
              (rt + min m p.invest_monthly_cap * 12) * 100
          else 0) := rfl
    rw [e, if_neg (not_lt.mpr hn)]
    norm_num [pyround2, pyround]

/-- Witness for C9 at the all-zero input, where both guards fire and both
percentages are 0. -/
theorem division_guards_witness :
    (project_year defaultProjector 0 0 0 0 0 0).1.invest_percentage = 0 ∧
    (project_year defaultProjector 0 0 0 0 0 0).1.return_percentage = 0 := by
  obtain ⟨-, -, h3, h4⟩ := division_guards defaultProjector 0 0 0 0 0 0
  refine ⟨h3 ?_, h4 ?_⟩
  · norm_num [compute_tax, defaultProjector, defaultTaxCalc]
  · norm_num [defaultProjector, INVEST_MONTHLY_CAP, min_def]

end IncomeHelper
